import Mathlib

/-!
Verification of the tool-usage evaluator core of the langchain-benchmarks
repository (`langchain_benchmarks/tool_usage/evaluators.py`).

The Python module is shallowly embedded:

* Python dicts (`run_outputs`, `example_outputs`, `run_inputs`) are records
  whose fields are `Option`-valued; `"k" in d` is `d.k.isSome` and `d["k"]`
  is a fallible lookup that throws a `KeyError` carrying the key name.
* Raised Python exceptions are the error side of an `Except Err` monad:
  `ValueError(msg)` is `Err.valueError msg`, `KeyError(k)` is
  `Err.keyError k`, and Python's `ZeroDivisionError` (raised by `/` on a
  zero denominator) is `Err.zeroDivisionError`.  `Err.emptyExpectedSteps`
  renders the dedicated fail-fast error the specification prescribes for an
  empty expected-steps sequence; the source never raises it.
* Scores (Python ints and floats produced by `int(...)` and `/`) are
  rationals; `len(a) / len(e)` is exact division in `ℚ` guarded by the
  zero-denominator check that Python's `/` performs.
* `sorted(...)` on lists of tool identifiers is `List.mergeSort` under the
  lexicographic order on `String`.
* The external language model (a network client) is opaque behaviour: a
  record of functions (`LLM`) from prompt contents to replies / scores.
  Tool identifiers, observations, state snapshots and answers are strings.
-/

namespace ToolUsage

/-- An exception raised by the evaluator code.  The constructors mirror the
exception classes the Python source can raise; `emptyExpectedSteps` is the
dedicated error the specification prescribes for an empty expected-steps
sequence, which the source does not implement. -/
inductive Err where
  | valueError (msg : String)
  | keyError (key : String)
  | zeroDivisionError
  | emptyExpectedSteps
  deriving Repr, DecidableEq

/-- A chat-model reply (`AIMessage`); only its `content` text is read. -/
structure Message where
  content : String

/-- An agent action; the evaluator only reads its `tool` identifier. -/
structure AgentAction where
  tool : String
  deriving Repr, DecidableEq

/-- The run-outputs record produced by an agent execution.  Fields are the
keys the evaluator reads; `none` means the key is absent from the dict. -/
structure RunOutputs where
  intermediate_steps : Option (List (AgentAction × String))
  actual_steps : Option (List String)
  state : Option String
  output : Option String

/-- The example-outputs record of a dataset item. -/
structure ExampleOutputs where
  expected_steps : Option (List String)
  order_matters : Option Bool
  state : Option String
  reference : Option String

/-- The run-inputs record; the evaluator only ever reads `question`. -/
structure RunInputs where
  question : Option String

/-- One named numeric score (`EvaluationResult`).  The provenance id of the
judged sub-run is trace plumbing and is not modelled. -/
structure EvaluationResult where
  key : String
  score : ℚ
  comment : Option String
  deriving Repr, DecidableEq

/-- The `{"results": [...]}` collection returned by `compare_outputs`. -/
structure EvaluationResults where
  results : List EvaluationResult
  deriving Repr, DecidableEq

/-- `QAMathEvaluator`: its `eval_chain` is the composed
`QA_TEMPLATE_FOR_MULTIVERSE_MATH_WITHOUT_QUESTION | chat_model`, a function
from the prompt variables `answer` (the reference, an optional string) and
`result` (the prediction) to the model's reply. -/
structure QAMathEvaluator where
  eval_chain : Option String → String → Message

/-- `QAMathEvaluator._evaluate_strings`: invoke the chain on the reference
and the prediction and score 1 exactly when the reply text starts with the
literal token CORRECT, else 0 (the returned dict reduced to its score). -/
def QAMathEvaluator.evaluate_strings (e : QAMathEvaluator)
    (prediction : String) (reference : Option String) : ℚ :=
  let result := e.eval_chain reference prediction
  if result.content.startsWith "CORRECT" then 1 else 0

/-- The judge held by the trajectory evaluator: either the bespoke
`QAMathEvaluator` (reference and prediction only) or a question-aware
evaluator loaded from the external framework, opaque behaviour mapping
(prediction, reference, question) to a score. -/
inductive Judge where
  | qaMathNoQuestion (e : QAMathEvaluator)
  | questionAware (score : String → String → String → ℚ)

/-- Step extraction at the top of `compare_outputs`: take the tool name of
each (action, observation) pair of `intermediate_steps`, else the
pre-extracted `actual_steps`, else raise the `ValueError`. -/
def extract_actual_steps (run_outputs : RunOutputs) :
    Except Err (List String) :=
  match run_outputs.intermediate_steps with
  | some intermediate_steps =>
      Except.ok (intermediate_steps.map (fun p => p.1.tool))
  | none =>
      match run_outputs.actual_steps with
      | some actual_steps => Except.ok actual_steps
      | none =>
          Except.error (Err.valueError
            "Please make sure that your agent outputs intermediate_steps or actual_steps")

/-- Python `sorted` on a list of tool identifiers: stable sort under the
lexicographic string order. -/
def pySorted (l : List String) : List String :=
  l.mergeSort (fun a b => decide (a ≤ b))

/-- The trajectory-correctness score of `compare_outputs`: when order
matters, 1 iff the sequences are equal; otherwise 1 iff they are equal
after sorting. -/
def trajectory_score (actual_steps expected_steps : List String)
    (order_matters : Bool) : ℚ :=
  if order_matters then
    if actual_steps = expected_steps then 1 else 0
  else
    if pySorted actual_steps = pySorted expected_steps then 1 else 0

/-- Python's true division on rationals: raises `ZeroDivisionError` on a
zero denominator, otherwise exact division. -/
def pyDiv (a b : ℚ) : Except Err ℚ :=
  if b = 0 then Except.error Err.zeroDivisionError else Except.ok (a / b)

/-- `example_outputs["reference"]`: the reference answer or a `KeyError`. -/
def getReference (example_outputs : ExampleOutputs) : Except Err String :=
  match example_outputs.reference with
  | some r => Except.ok r
  | none => Except.error (Err.keyError "reference")

/-- `run_inputs["question"]`: the question or a `KeyError`. -/
def getQuestion (run_inputs : RunInputs) : Except Err String :=
  match run_inputs.question with
  | some q => Except.ok q
  | none => Except.error (Err.keyError "question")

/-- The comment attached to the trajectory result. -/
def orderComment (order_matters : Bool) : String :=
  "Order matters=" ++ toString order_matters

/-- The optional output-correctness score: the `if "output" in run_outputs
and qa_evaluator:` block of `compare_outputs`, dispatching on whether the
judge is the `QAMathEvaluator` (no question) or question-aware. -/
def outputCorrectness (run_outputs : RunOutputs)
    (example_outputs : ExampleOutputs) (run_inputs : RunInputs)
    (qa_evaluator : Option Judge) : Except Err (Option ℚ) :=
  match run_outputs.output, qa_evaluator with
  | some output, some judge =>
      match judge with
      | Judge.qaMathNoQuestion e =>
          match getReference example_outputs with
          | Except.error err => Except.error err
          | Except.ok reference =>
              Except.ok (some (e.evaluate_strings output (some reference)))
      | Judge.questionAware score =>
          match getReference example_outputs with
          | Except.error err => Except.error err
          | Except.ok reference =>
              match getQuestion run_inputs with
              | Except.error err => Except.error err
              | Except.ok question =>
                  Except.ok (some (score output reference question))
  | _, _ => Except.ok none

/-- `compare_outputs`: compare the outputs of a run to the expected
outputs, producing the ordered collection of named scores or raising. -/
def compare_outputs (run_outputs : RunOutputs)
    (example_outputs : ExampleOutputs) (run_inputs : RunInputs)
    (qa_evaluator : Option Judge) : Except Err EvaluationResults :=
  match extract_actual_steps run_outputs with
  | Except.error err => Except.error err
  | Except.ok actual_steps =>
    match example_outputs.expected_steps with
    | none => Except.error (Err.keyError "expected_steps")
    | some expected_steps =>
      let order_matters := example_outputs.order_matters.getD true
      let tscore := trajectory_score actual_steps expected_steps order_matters
      match pyDiv (actual_steps.length : ℚ) (expected_steps.length : ℚ) with
      | Except.error err => Except.error err
      | Except.ok step_fraction =>
        let results : List EvaluationResult :=
          [⟨"Intermediate steps correctness", tscore, some (orderComment order_matters)⟩,
           ⟨"# steps / # expected steps", step_fraction, none⟩]
        let results :=
          match run_outputs.state, example_outputs.state with
          | some state, some example_state =>
              results ++
                [⟨"Correct Final State", if state = example_state then 1 else 0, none⟩]
          | _, _ => results
        match outputCorrectness run_outputs example_outputs run_inputs qa_evaluator with
        | Except.error err => Except.error err
        | Except.ok none => Except.ok ⟨results⟩
        | Except.ok (some qa_score) =>
            Except.ok ⟨results ++ [⟨"correctness", qa_score, none⟩]⟩

/-- Project the score attached to key `k` out of an evaluation outcome;
`none` when the evaluation raised or the key is absent. -/
def score_of (r : Except Err EvaluationResults) (k : String) : Option ℚ :=
  match r with
  | Except.ok res =>
      (res.results.find? (fun er => er.key == k)).map EvaluationResult.score
  | Except.error _ => none

/-- The judging-mode selector (`OutputEvaluation` literal); `noneMode` is
the literal `"none"`. -/
inductive OutputEvaluation where
  | qa
  | qa_math
  | noneMode
  | qa_math_without_question
  deriving Repr, DecidableEq

/-- An externally supplied chat model, opaque behaviour: `reply` is what
the without-question math-judge chain built on it answers given the
`answer`/`result` prompt variables; `qaScore` and `qaMathScore` are the
scores of the framework QA evaluators loaded over it (arguments:
prediction, reference, question). -/
structure LLM where
  reply : Option String → String → Message
  qaScore : String → String → String → ℚ
  qaMathScore : String → String → String → ℚ

/-- The default `ChatOpenAI(model="gpt-4", temperature=0, seed=42, ...)`
client constructed when no model is supplied: an external network service
whose behaviour is opaque; modelled as replying emptily. -/
def defaultChatOpenAI : LLM :=
  ⟨fun _ _ => ⟨""⟩, fun _ _ _ => 0, fun _ _ _ => 0⟩

/-- The constructed `AgentTrajectoryEvaluator`: the judge it holds (if
any) and the mode it was built with. -/
structure AgentTrajectoryEvaluator where
  qa_evaluator : Option Judge
  output_evaluation : OutputEvaluation

/-- `AgentTrajectoryEvaluator.__init__`: mode `none` with a supplied model
is a `ValueError` at construction; mode `none` alone holds no judge; the
other modes build the corresponding judge over the supplied model or the
default client. -/
def AgentTrajectoryEvaluator.init (eval_llm : Option LLM)
    (output_evaluation : OutputEvaluation) :
    Except Err AgentTrajectoryEvaluator :=
  match output_evaluation with
  | OutputEvaluation.noneMode =>
      match eval_llm with
      | some _ =>
          Except.error (Err.valueError
            "If output_evaluation is none, then eval_llm must be None")
      | none => Except.ok ⟨none, OutputEvaluation.noneMode⟩
  | OutputEvaluation.qa =>
      let llm := eval_llm.getD defaultChatOpenAI
      Except.ok ⟨some (Judge.questionAware llm.qaScore), OutputEvaluation.qa⟩
  | OutputEvaluation.qa_math =>
      let llm := eval_llm.getD defaultChatOpenAI
      Except.ok ⟨some (Judge.questionAware llm.qaMathScore), OutputEvaluation.qa_math⟩
  | OutputEvaluation.qa_math_without_question =>
      let llm := eval_llm.getD defaultChatOpenAI
      Except.ok ⟨some (Judge.qaMathNoQuestion ⟨llm.reply⟩),
        OutputEvaluation.qa_math_without_question⟩

/-- A completed agent run: its recorded outputs (possibly `None`) and its
inputs. -/
structure Run where
  outputs : Option RunOutputs
  inputs : RunInputs

/-- A dataset example: its expected outputs. -/
structure Example where
  outputs : ExampleOutputs

/-- `AgentTrajectoryEvaluator.evaluate_run`: validate the run and example,
check a step representation and the expected steps are present, then defer
to `compare_outputs`. -/
def AgentTrajectoryEvaluator.evaluate_run (ev : AgentTrajectoryEvaluator)
    (run : Run) (exampl : Option Example) : Except Err EvaluationResults :=
  match run.outputs with
  | none => Except.error (Err.valueError "Run outputs cannot be None")
  | some outputs =>
    match exampl with
    | none => Except.error (Err.valueError "Example cannot be None")
    | some ex =>
      if outputs.intermediate_steps.isNone ∧ outputs.actual_steps.isNone then
        Except.error (Err.valueError
          "Please make sure that your agent outputs intermediate_steps or actual_steps")
      else if ex.outputs.expected_steps.isNone then
        Except.error (Err.valueError
          "Please make sure that your dataset contains expected_steps")
      else
        compare_outputs outputs ex.outputs run.inputs ev.qa_evaluator



theorem pySorted_perm (l : List String) : (pySorted l).Perm l :=
  List.mergeSort_perm l _

theorem pySorted_sorted (l : List String) :
    List.Sorted (fun a b : String => a ≤ b) (pySorted l) := by
  have h := @List.sorted_mergeSort String (fun a b : String => decide (a ≤ b))
    (fun a b c h1 h2 => by
      simp only [decide_eq_true_eq] at h1 h2 ⊢
      exact le_trans h1 h2)
    (fun a b => by
      simp only [Bool.or_eq_true, decide_eq_true_eq]
      exact le_total a b) l
  exact h.imp (fun hab => by simpa using hab)

theorem pySorted_eq_iff (a b : List String) :
    pySorted a = pySorted b ↔ a.Perm b := by
  constructor
  · intro h
    exact (pySorted_perm a).symm.trans (h ▸ pySorted_perm b)
  · intro h
    exact List.eq_of_perm_of_sorted
      (((pySorted_perm a).trans h).trans (pySorted_perm b).symm)
      (pySorted_sorted a) (pySorted_sorted b)

theorem trajectory_score_false_eq (a e : List String) :
    trajectory_score a e false =
      if (a : Multiset String) = (e : Multiset String) then 1 else 0 := by
  unfold trajectory_score
  by_cases h : a.Perm e
  · simp [pySorted_eq_iff, Multiset.coe_eq_coe, h]
  · simp [pySorted_eq_iff, Multiset.coe_eq_coe, h]

theorem compare_outputs_ok_shape (ro : RunOutputs) (eo : ExampleOutputs)
    (ri : RunInputs) (j : Option Judge) (A E : List String)
    (res : EvaluationResults)
    (hA : extract_actual_steps ro = Except.ok A)
    (hE : eo.expected_steps = some E)
    (hok : compare_outputs ro eo ri j = Except.ok res) :
    E ≠ [] ∧ ∃ oc : Option ℚ,
      outputCorrectness ro eo ri j = Except.ok oc ∧
      res.results =
        ⟨"Intermediate steps correctness",
          trajectory_score A E (eo.order_matters.getD true),
          some (orderComment (eo.order_matters.getD true))⟩ ::
        ⟨"# steps / # expected steps", (A.length : ℚ) / (E.length : ℚ), none⟩ ::
        ((match ro.state, eo.state with
          | some state, some example_state =>
              [⟨"Correct Final State", if state = example_state then 1 else 0, none⟩]
          | _, _ => []) ++
         (match oc with
          | some qa_score => [⟨"correctness", qa_score, none⟩]
          | none => [])) := by
  unfold compare_outputs at hok
  rw [hA, hE] at hok
  by_cases hE0 : E = []
  · subst hE0
    simp [pyDiv] at hok
  · refine ⟨hE0, ?_⟩
    have hlen : (E.length : ℚ) ≠ 0 := by
      simpa using List.length_eq_zero.not.mpr hE0
    simp only [pyDiv, if_neg hlen] at hok
    rcases hoc : outputCorrectness ro eo ri j with err | _ | q <;> rw [hoc] at hok
    · simp at hok
    · refine ⟨none, rfl, ?_⟩
      rcases hst : ro.state with _ | st <;> rcases hest : eo.state with _ | est <;>
        rw [hst, hest] at hok <;> simp only [] at hok <;>
        injection hok with hok <;> subst hok <;> simp
    · refine ⟨some q, rfl, ?_⟩
      rcases hst : ro.state with _ | st <;> rcases hest : eo.state with _ | est <;>
        rw [hst, hest] at hok <;> simp only [] at hok <;>
        injection hok with hok <;> subst hok <;> simp


/-- C1: for run/example pairs the comparator accepts, the Intermediate steps
correctness score is 1 iff the sequences are element-wise identical when the
resolved order_matters flag is true (the default), and 1 iff they carry the
same multiset of identifiers when it is false. -/
theorem C1_intermediate_steps_correctness
    (ro : RunOutputs) (eo : ExampleOutputs) (ri : RunInputs) (j : Option Judge)
    (A E : List String) (res : EvaluationResults)
    (hA : extract_actual_steps ro = Except.ok A)
    (hE : eo.expected_steps = some E)
    (hok : compare_outputs ro eo ri j = Except.ok res) :
    score_of (compare_outputs ro eo ri j) "Intermediate steps correctness" =
      some (if eo.order_matters.getD true
            then (if A = E then (1 : ℚ) else 0)
            else (if (A : Multiset String) = (E : Multiset String) then (1 : ℚ) else 0)) := by
  obtain ⟨-, oc, -, hres⟩ := compare_outputs_ok_shape ro eo ri j A E res hA hE hok
  rw [hok]
  have hfind : score_of (Except.ok res) "Intermediate steps correctness" =
      some (trajectory_score A E (eo.order_matters.getD true)) := by
    simp [score_of, hres]
  rw [hfind]
  cases hb : eo.order_matters.getD true
  · rw [trajectory_score_false_eq]
    simp
  · simp [trajectory_score]

/-- Witness for C1 at a concrete accepted pair. -/
theorem C1_witness :
    score_of (compare_outputs ⟨none, some ["add", "sub"], none, none⟩
        ⟨some ["add", "sub"], none, none, none⟩ ⟨none⟩ none)
      "Intermediate steps correctness" = some 1 := by
  have h := C1_intermediate_steps_correctness
    ⟨none, some ["add", "sub"], none, none⟩ ⟨some ["add", "sub"], none, none, none⟩
    ⟨none⟩ none ["add", "sub"] ["add", "sub"]
    ⟨[⟨"Intermediate steps correctness", 1, some "Order matters=true"⟩,
      ⟨"# steps / # expected steps", 1, none⟩]⟩
    rfl rfl (by norm_num [compare_outputs, extract_actual_steps, pyDiv, trajectory_score,
      orderComment, outputCorrectness]; rfl)
  simpa using h

/-- C2: the step-count-ratio score is exactly N/M (unclamped), monotonically
increasing in the number of actual steps and decreasing in the number of
expected steps. -/
theorem C2_step_fraction_exact_and_monotone
    (ro : RunOutputs) (eo : ExampleOutputs) (ri : RunInputs) (j : Option Judge)
    (A E : List String) (res : EvaluationResults)
    (hA : extract_actual_steps ro = Except.ok A)
    (hE : eo.expected_steps = some E)
    (hok : compare_outputs ro eo ri j = Except.ok res) :
    score_of (compare_outputs ro eo ri j) "# steps / # expected steps" =
      some ((A.length : ℚ) / (E.length : ℚ)) ∧
    0 < E.length ∧
    (∀ n1 n2 m : ℕ, 0 < m → n1 ≤ n2 → (n1 : ℚ) / (m : ℚ) ≤ (n2 : ℚ) / (m : ℚ)) ∧
    (∀ n m1 m2 : ℕ, 0 < m1 → m1 ≤ m2 → (n : ℚ) / (m2 : ℚ) ≤ (n : ℚ) / (m1 : ℚ)) := by
  obtain ⟨hne, oc, -, hres⟩ := compare_outputs_ok_shape ro eo ri j A E res hA hE hok
  refine ⟨?_, List.length_pos.mpr hne, ?_, ?_⟩
  · rw [hok]
    simp [score_of, hres]
  · intro n1 n2 m hm h12
    gcongr
  · intro n m1 m2 hm1 h12
    gcongr

/-- Witness for C2 at a run with three steps against two expected steps:
the ratio is 3/2, above 1. -/
theorem C2_witness :
    score_of (compare_outputs ⟨none, some ["a", "b", "c"], none, none⟩
        ⟨some ["a", "b"], none, none, none⟩ ⟨none⟩ none)
      "# steps / # expected steps" = some ((3 : ℚ) / 2) := by
  have h := (C2_step_fraction_exact_and_monotone
    ⟨none, some ["a", "b", "c"], none, none⟩ ⟨some ["a", "b"], none, none, none⟩
    ⟨none⟩ none ["a", "b", "c"] ["a", "b"]
    ⟨[⟨"Intermediate steps correctness", 0, some "Order matters=true"⟩,
      ⟨"# steps / # expected steps", 3 / 2, none⟩]⟩
    rfl rfl (by norm_num [compare_outputs, extract_actual_steps, pyDiv, trajectory_score,
      orderComment, outputCorrectness]; rfl)).1
  simpa using h

/-- C8: identical step sequences score 1 under either value of the resolved
order_matters flag; sequences that are permutations of each other but not
identical score 1 when the flag is false and 0 when it is true (also the
default when absent). -/
theorem C8_trajectory_score_order_matters :
    (∀ (ro : RunOutputs) (eo : ExampleOutputs) (ri : RunInputs) (j : Option Judge)
        (A E : List String) (res : EvaluationResults),
      extract_actual_steps ro = Except.ok A → eo.expected_steps = some E →
      compare_outputs ro eo ri j = Except.ok res → A = E →
      score_of (compare_outputs ro eo ri j) "Intermediate steps correctness" = some 1) ∧
    (∀ (ro : RunOutputs) (eo : ExampleOutputs) (ri : RunInputs) (j : Option Judge)
        (A E : List String) (res : EvaluationResults),
      extract_actual_steps ro = Except.ok A → eo.expected_steps = some E →
      compare_outputs ro eo ri j = Except.ok res → A.Perm E → A ≠ E →
      score_of (compare_outputs ro eo ri j) "Intermediate steps correctness" =
        some (if eo.order_matters.getD true then 0 else 1)) := by
  constructor
  · intro ro eo ri j A E res hA hE hok hAE
    obtain ⟨-, oc, -, hres⟩ := compare_outputs_ok_shape ro eo ri j A E res hA hE hok
    rw [hok]
    subst hAE
    simp [score_of, hres, trajectory_score]
  · intro ro eo ri j A E res hA hE hok hperm hne
    obtain ⟨-, oc, -, hres⟩ := compare_outputs_ok_shape ro eo ri j A E res hA hE hok
    rw [hok]
    have hs : pySorted A = pySorted E := (pySorted_eq_iff A E).mpr hperm
    cases hb : eo.order_matters.getD true <;>
      simp [score_of, hres, trajectory_score, hb, hs, hne]

/-- Witness for C8: an identical pair scores 1 under order_matters=false,
and a non-identical permutation scores 0 under order_matters=true. -/
theorem C8_witness :
    score_of (compare_outputs ⟨none, some ["mul"], none, none⟩
        ⟨some ["mul"], some false, none, none⟩ ⟨none⟩ none)
      "Intermediate steps correctness" = some 1 ∧
    score_of (compare_outputs ⟨none, some ["p", "q"], none, none⟩
        ⟨some ["q", "p"], some true, none, none⟩ ⟨none⟩ none)
      "Intermediate steps correctness" = some 0 := by
  constructor
  · exact C8_trajectory_score_order_matters.1
      ⟨none, some ["mul"], none, none⟩ ⟨some ["mul"], some false, none, none⟩
      ⟨none⟩ none ["mul"] ["mul"]
      ⟨[⟨"Intermediate steps correctness", 1, some "Order matters=false"⟩,
        ⟨"# steps / # expected steps", 1, none⟩]⟩
      rfl rfl (by norm_num [compare_outputs, extract_actual_steps, pyDiv, trajectory_score,
        orderComment, outputCorrectness]; rfl) rfl
  · have h := C8_trajectory_score_order_matters.2
      ⟨none, some ["p", "q"], none, none⟩ ⟨some ["q", "p"], some true, none, none⟩
      ⟨none⟩ none ["p", "q"] ["q", "p"]
      ⟨[⟨"Intermediate steps correctness", 0, some "Order matters=true"⟩,
        ⟨"# steps / # expected steps", 1, none⟩]⟩
      rfl rfl (by norm_num [compare_outputs, extract_actual_steps, pyDiv, trajectory_score,
        orderComment, outputCorrectness]; exact ⟨by decide, rfl⟩) (by decide) (by decide)
    simpa using h


/-- C3: the without-question math judge scores 1 exactly when the model
reply text begins with the literal token CORRECT and 0 for every other
reply (the reply is arbitrary, including empty); the score is always one of
the two values and the embedded evaluator is total, so a malformed reply is
a 0 score, never an error. -/
theorem C3_qa_math_judge_binary (e : QAMathEvaluator) (prediction : String)
    (reference : Option String) :
    (e.evaluate_strings prediction reference = 1 ↔
      (e.eval_chain reference prediction).content.startsWith "CORRECT" = true) ∧
    (e.evaluate_strings prediction reference = 0 ∨
      e.evaluate_strings prediction reference = 1) := by
  unfold QAMathEvaluator.evaluate_strings
  by_cases h : (e.eval_chain reference prediction).content.startsWith "CORRECT" <;>
    simp [h]

/-- C4 counterexample: on an empty expected-steps sequence the comparator
does not fail with the dedicated EmptyExpectedSteps error the claim
prescribes; it reaches the division and raises ZeroDivisionError. -/
theorem C4_counterexample :
    compare_outputs ⟨none, some ["a"], none, none⟩ ⟨some [], none, none, none⟩
        ⟨none⟩ none = Except.error Err.zeroDivisionError ∧
    compare_outputs ⟨none, some ["a"], none, none⟩ ⟨some [], none, none, none⟩
        ⟨none⟩ none ≠ Except.error Err.emptyExpectedSteps := by
  have h : compare_outputs ⟨none, some ["a"], none, none⟩ ⟨some [], none, none, none⟩
      ⟨none⟩ none = Except.error Err.zeroDivisionError := by
    norm_num [compare_outputs, extract_actual_steps, pyDiv, trajectory_score,
      orderComment, outputCorrectness]
  exact ⟨h, by rw [h]; simp⟩

/-- C4 (amended): whenever a step sequence is extracted and the expected
steps are the empty sequence, the comparator reaches the step-count-ratio
division and fails with ZeroDivisionError; no dedicated fail-fast
EmptyExpectedSteps guard exists. -/
theorem C4_empty_expected_zero_division
    (ro : RunOutputs) (eo : ExampleOutputs) (ri : RunInputs) (j : Option Judge)
    (A : List String)
    (hA : extract_actual_steps ro = Except.ok A)
    (hE : eo.expected_steps = some []) :
    compare_outputs ro eo ri j = Except.error Err.zeroDivisionError := by
  unfold compare_outputs
  rw [hA, hE]
  simp [pyDiv]

/-- Witness for the amended C4 at a concrete two-step run. -/
theorem C4_witness :
    compare_outputs ⟨none, some ["x", "y"], none, none⟩ ⟨some [], none, none, none⟩
        ⟨none⟩ none = Except.error Err.zeroDivisionError :=
  C4_empty_expected_zero_division _ _ ⟨none⟩ none ["x", "y"] rfl rfl

/-- C5: a run-outputs record with neither intermediate_steps nor
actual_steps makes evaluation raise the ValueError whose message names the
two missing step-sequence fields (the spec's InvalidRunOutput); the
evaluation returns this error and no result collection. -/
theorem C5_invalid_run_output (ev : AgentTrajectoryEvaluator) (run : Run)
    (ex : Example) (outputs : RunOutputs)
    (h1 : run.outputs = some outputs)
    (h2 : outputs.intermediate_steps = none)
    (h3 : outputs.actual_steps = none) :
    ev.evaluate_run run (some ex) =
      Except.error (Err.valueError
        "Please make sure that your agent outputs intermediate_steps or actual_steps") := by
  unfold AgentTrajectoryEvaluator.evaluate_run
  rw [h1]
  simp [h2, h3]

/-- Witness for C5 at a concrete run with no step representation. -/
theorem C5_witness :
    AgentTrajectoryEvaluator.evaluate_run ⟨none, OutputEvaluation.noneMode⟩
      ⟨some ⟨none, none, none, none⟩, ⟨none⟩⟩
      (some ⟨⟨some ["a"], none, none, none⟩⟩) =
      Except.error (Err.valueError
        "Please make sure that your agent outputs intermediate_steps or actual_steps") :=
  C5_invalid_run_output ⟨none, OutputEvaluation.noneMode⟩
    ⟨some ⟨none, none, none, none⟩, ⟨none⟩⟩ ⟨⟨some ["a"], none, none, none⟩⟩
    ⟨none, none, none, none⟩ rfl rfl rfl

/-- C6: when output correctness is requested (run outputs carry an output
and a judge is supplied) but the example outputs carry no reference, the
comparator fails with the KeyError naming the missing reference field (the
spec's MissingReference). -/
theorem C6_missing_reference
    (ro : RunOutputs) (eo : ExampleOutputs) (ri : RunInputs) (j : Judge)
    (A E : List String) (out : String)
    (hA : extract_actual_steps ro = Except.ok A)
    (hE : eo.expected_steps = some E)
    (hne : E ≠ [])
    (hout : ro.output = some out)
    (href : eo.reference = none) :
    compare_outputs ro eo ri (some j) = Except.error (Err.keyError "reference") := by
  unfold compare_outputs
  rw [hA, hE]
  have hlen : (E.length : ℚ) ≠ 0 := by
    simpa using List.length_eq_zero.not.mpr hne
  simp only [pyDiv, if_neg hlen]
  have hoc : outputCorrectness ro eo ri (some j) =
      Except.error (Err.keyError "reference") := by
    unfold outputCorrectness
    rw [hout]
    cases j with
    | qaMathNoQuestion e => simp [getReference, href]
    | questionAware f => simp [getReference, href]
  rw [hoc]

/-- Witness for C6: judged run with an output but no reference answer. -/
theorem C6_witness :
    compare_outputs ⟨none, some ["a"], none, some "61"⟩ ⟨some ["a"], none, none, none⟩
        ⟨none⟩ (some (Judge.questionAware (fun _ _ _ => 0))) =
      Except.error (Err.keyError "reference") :=
  C6_missing_reference ⟨none, some ["a"], none, some "61"⟩
    ⟨some ["a"], none, none, none⟩ ⟨none⟩ (Judge.questionAware (fun _ _ _ => 0))
    ["a"] ["a"] "61" rfl rfl (by simp) rfl rfl


theorem outputCorrectness_none (ro : RunOutputs) (eo : ExampleOutputs)
    (ri : RunInputs) : outputCorrectness ro eo ri none = Except.ok none := by
  obtain ⟨is, as, st, out⟩ := ro
  unfold outputCorrectness
  rcases out <;> rfl

theorem compare_outputs_ok_extract (ro : RunOutputs) (eo : ExampleOutputs)
    (ri : RunInputs) (j : Option Judge) (res : EvaluationResults)
    (hok : compare_outputs ro eo ri j = Except.ok res) :
    ∃ A E, extract_actual_steps ro = Except.ok A ∧ eo.expected_steps = some E := by
  unfold compare_outputs at hok
  rcases hx : extract_actual_steps ro with err | A <;> rw [hx] at hok
  · simp at hok
  · rcases hy : eo.expected_steps with _ | E <;> rw [hy] at hok
    · simp at hok
    · exact ⟨A, E, rfl, rfl⟩

/-- C7: constructing the run evaluator with mode none together with an
explicit model handle fails at construction with the ValueError (the spec's
ConflictingJudgeConfig); with mode none and no model it succeeds holding no
judge, and a comparator run with no judge never produces a correctness
score. -/
theorem C7_none_mode_config :
    (∀ llm : LLM,
      AgentTrajectoryEvaluator.init (some llm) OutputEvaluation.noneMode =
        Except.error (Err.valueError
          "If output_evaluation is none, then eval_llm must be None")) ∧
    AgentTrajectoryEvaluator.init none OutputEvaluation.noneMode =
      Except.ok ⟨none, OutputEvaluation.noneMode⟩ ∧
    (∀ (ro : RunOutputs) (eo : ExampleOutputs) (ri : RunInputs),
      score_of (compare_outputs ro eo ri none) "correctness" = none) := by
  refine ⟨fun llm => rfl, rfl, fun ro eo ri => ?_⟩
  rcases hc : compare_outputs ro eo ri none with err | res
  · simp [score_of]
  · obtain ⟨A, E, hA, hE⟩ := compare_outputs_ok_extract ro eo ri none res hc
    obtain ⟨-, oc, hoc, hres⟩ :=
      compare_outputs_ok_shape ro eo ri none A E res hA hE hc
    rw [outputCorrectness_none] at hoc
    injection hoc with hoc
    subst hoc
    rcases hst : ro.state with _ | st <;> rcases hest : eo.state with _ | est <;>
      rw [hst, hest] at hres <;> simp [score_of, hres]

/-- C9: two runs whose intermediate steps carry the same ordered tool
identifiers but arbitrary observation values evaluate identically; in
particular the trajectory-correctness and step-count-ratio scores agree
(observations never influence a score). -/
theorem C9_observation_noninterference
    (s1 s2 : List (AgentAction × String)) (as : Option (List String))
    (st out : Option String) (eo : ExampleOutputs) (ri : RunInputs)
    (j : Option Judge)
    (h : s1.map (fun p => p.1.tool) = s2.map (fun p => p.1.tool)) :
    compare_outputs ⟨some s1, as, st, out⟩ eo ri j =
      compare_outputs ⟨some s2, as, st, out⟩ eo ri j ∧
    score_of (compare_outputs ⟨some s1, as, st, out⟩ eo ri j)
        "Intermediate steps correctness" =
      score_of (compare_outputs ⟨some s2, as, st, out⟩ eo ri j)
        "Intermediate steps correctness" ∧
    score_of (compare_outputs ⟨some s1, as, st, out⟩ eo ri j)
        "# steps / # expected steps" =
      score_of (compare_outputs ⟨some s2, as, st, out⟩ eo ri j)
        "# steps / # expected steps" := by
  have hx : extract_actual_steps ⟨some s1, as, st, out⟩ =
      extract_actual_steps ⟨some s2, as, st, out⟩ := by
    simp [extract_actual_steps, h]
  have hc : compare_outputs ⟨some s1, as, st, out⟩ eo ri j =
      compare_outputs ⟨some s2, as, st, out⟩ eo ri j := by
    unfold compare_outputs
    rw [hx]
    rfl
  exact ⟨hc, by rw [hc], by rw [hc]⟩

/-- Witness for C9: same tool sequence, different observations. -/
theorem C9_witness :
    compare_outputs ⟨some [(⟨"add"⟩, "observation one")], none, none, none⟩
        ⟨some ["add"], none, none, none⟩ ⟨none⟩ none =
      compare_outputs ⟨some [(⟨"add"⟩, "a wholly different observation")], none, none, none⟩
        ⟨some ["add"], none, none, none⟩ ⟨none⟩ none :=
  (C9_observation_noninterference
    [(⟨"add"⟩, "observation one")] [(⟨"add"⟩, "a wholly different observation")]
    none none none ⟨some ["add"], none, none, none⟩ ⟨none⟩ none rfl).1

/-- C10: with an output present and a question-aware judge, the comparator
reads the question from run inputs, failing with its KeyError when absent
and passing its value to the judge when present; with the without-question
QAMathEvaluator judge, run inputs are never read, so evaluation does not
depend on them. -/
theorem C10_question_dependency :
    (∀ (f : String → String → String → ℚ) (ro : RunOutputs)
        (eo : ExampleOutputs) (ri : RunInputs) (A E : List String)
        (out ref : String),
      extract_actual_steps ro = Except.ok A → eo.expected_steps = some E →
      E ≠ [] → ro.output = some out → eo.reference = some ref →
      ri.question = none →
      compare_outputs ro eo ri (some (Judge.questionAware f)) =
        Except.error (Err.keyError "question")) ∧
    (∀ (e : QAMathEvaluator) (ro : RunOutputs) (eo : ExampleOutputs)
        (ri1 ri2 : RunInputs),
      compare_outputs ro eo ri1 (some (Judge.qaMathNoQuestion e)) =
        compare_outputs ro eo ri2 (some (Judge.qaMathNoQuestion e))) ∧
    (∀ (f : String → String → String → ℚ) (ro : RunOutputs)
        (eo : ExampleOutputs) (ri : RunInputs) (out ref q : String),
      ro.output = some out → eo.reference = some ref → ri.question = some q →
      outputCorrectness ro eo ri (some (Judge.questionAware f)) =
        Except.ok (some (f out ref q))) := by
  refine ⟨?_, ?_, ?_⟩
  · intro f ro eo ri A E out ref hA hE hne hout href hq
    unfold compare_outputs
    rw [hA, hE]
    have hlen : (E.length : ℚ) ≠ 0 := by
      simpa using List.length_eq_zero.not.mpr hne
    simp only [pyDiv, if_neg hlen]
    have hoc : outputCorrectness ro eo ri (some (Judge.questionAware f)) =
        Except.error (Err.keyError "question") := by
      unfold outputCorrectness
      rw [hout]
      simp [getReference, href, getQuestion, hq]
    rw [hoc]
  · intro e ro eo ri1 ri2
    have hoc : outputCorrectness ro eo ri1 (some (Judge.qaMathNoQuestion e)) =
        outputCorrectness ro eo ri2 (some (Judge.qaMathNoQuestion e)) := by
      obtain ⟨is, as, st, out⟩ := ro
      unfold outputCorrectness
      rcases out <;> rfl
    unfold compare_outputs
    rw [hoc]
  · intro f ro eo ri out ref q hout href hq
    unfold outputCorrectness
    rw [hout]
    simp [getReference, href, getQuestion, hq]

/-- Witness for C10: the three parts at concrete inputs. -/
theorem C10_witness :
    compare_outputs ⟨none, some ["a"], none, some "42"⟩
        ⟨some ["a"], none, none, some "42"⟩ ⟨none⟩
        (some (Judge.questionAware (fun _ _ _ => 1))) =
      Except.error (Err.keyError "question") ∧
    compare_outputs ⟨none, some ["a"], none, some "42"⟩
        ⟨some ["a"], none, none, some "42"⟩ ⟨some "first question"⟩
        (some (Judge.qaMathNoQuestion ⟨fun _ _ => ⟨"CORRECT"⟩⟩)) =
      compare_outputs ⟨none, some ["a"], none, some "42"⟩
        ⟨some ["a"], none, none, some "42"⟩ ⟨some "second question"⟩
        (some (Judge.qaMathNoQuestion ⟨fun _ _ => ⟨"CORRECT"⟩⟩)) ∧
    outputCorrectness ⟨none, some ["a"], none, some "42"⟩
        ⟨some ["a"], none, none, some "42"⟩ ⟨some "what is 6 times 7"⟩
        (some (Judge.questionAware (fun _ _ _ => 1))) =
      Except.ok (some ((fun _ _ _ => (1 : ℚ)) "42" "42" "what is 6 times 7")) :=
  ⟨C10_question_dependency.1 (fun _ _ _ => 1) ⟨none, some ["a"], none, some "42"⟩
      ⟨some ["a"], none, none, some "42"⟩ ⟨none⟩ ["a"] ["a"] "42" "42"
      rfl rfl (by simp) rfl rfl rfl,
    C10_question_dependency.2.1 ⟨fun _ _ => ⟨"CORRECT"⟩⟩
      ⟨none, some ["a"], none, some "42"⟩ ⟨some ["a"], none, none, some "42"⟩
      ⟨some "first question"⟩ ⟨some "second question"⟩,
    C10_question_dependency.2.2 (fun _ _ _ => 1) ⟨none, some ["a"], none, some "42"⟩
      ⟨some ["a"], none, none, some "42"⟩ ⟨some "what is 6 times 7"⟩
      "42" "42" "what is 6 times 7" rfl rfl rfl⟩

end ToolUsage
